import Mathlib

/-!
Verification development for the clang-build build-graph subsystem.

The Python sources under src/clang_build are shallowly embedded below:
pure fragments of the constructors become Lean functions, container
mutation becomes explicit list appending, and dynamic attribute lookup
on the platform module becomes an association-list lookup.  Python's
list(set(xs)) returns the distinct elements of xs in unspecified order;
it is modelled by List.dedup (first occurrences kept), which agrees with
it up to permutation, and the properties proved about it (duplicate
freedom, membership) are permutation invariant.  The option-dictionary
readers (Target.parse_flags_options, io_tools.get_sources_and_headers)
are abstracted as explicit list parameters holding their results.
-/

/-- The four target variants of target.py (classes HeaderOnly, Executable,
SharedLibrary, StaticLibrary). -/
inductive TargetKind where
  | headerOnly
  | executable
  | sharedLibrary
  | staticLibrary
deriving DecidableEq, Repr

/-- build_type.BuildType as consumed by target.py lines 144-154. -/
inductive BuildType where
  | release
  | debug
  | relWithDebInfo
  | coverage
deriving DecidableEq, Repr

/-- target.py line 23: Target.DEFAULT_COMPILE_FLAGS. -/
def DEFAULT_COMPILE_FLAGS : List String := ["-Wall", "-Wextra", "-Wpedantic", "-Werror"]

/-- target.py line 24. -/
def DEFAULT_COMPILE_FLAGS_RELEASE : List String := ["-O3", "-DNDEBUG"]

/-- target.py line 25. -/
def DEFAULT_COMPILE_FLAGS_RELWITHDEBINFO : List String := ["-O3", "-g3", "-DNDEBUG"]

/-- target.py line 26. -/
def DEFAULT_COMPILE_FLAGS_DEBUG : List String := ["-O0", "-g3", "-DDEBUG"]

/-- target.py lines 27-29. -/
def DEFAULT_COMPILE_FLAGS_COVERAGE : List String :=
  DEFAULT_COMPILE_FLAGS_DEBUG ++ ["--coverage", "-fno-inline"]

/-- target.py lines 144-154: the build-type specific defaults appended to
self.compile_flags (note: the base DEFAULT_COMPILE_FLAGS are not among them). -/
def buildTypeDefaultFlags : BuildType → List String
  | BuildType.release => DEFAULT_COMPILE_FLAGS_RELEASE
  | BuildType.debug => DEFAULT_COMPILE_FLAGS_DEBUG
  | BuildType.relWithDebInfo => DEFAULT_COMPILE_FLAGS_RELWITHDEBINFO
  | BuildType.coverage => DEFAULT_COMPILE_FLAGS_COVERAGE

/-- The six flag vectors a Target holds (target.py lines 134-141). -/
structure FlagState where
  compile_flags : List String
  link_flags : List String
  compile_flags_interface : List String
  link_flags_interface : List String
  compile_flags_public : List String
  link_flags_public : List String
deriving DecidableEq, Repr

/-- The flag vectors of an already-constructed dependency target, as read
by the propagation loop (target.py lines 160-184). -/
structure DepFlags where
  compile_flags_interface : List String
  link_flags_interface : List String
  compile_flags_public : List String
  link_flags_public : List String
deriving DecidableEq, Repr

/-- target.py lines 160-184: one iteration of the dependency flag
propagation loop, dispatching on the class of the target under
construction (self), not of the dependency. -/
def applyDependencyFlags (selfClass : TargetKind) (s : FlagState) (t : DepFlags) : FlagState :=
  match selfClass with
  | TargetKind.headerOnly =>
    { s with
      compile_flags_interface := s.compile_flags_interface ++ t.compile_flags_interface,
      link_flags_interface := s.link_flags_interface ++ t.link_flags_interface,
      compile_flags_public := s.compile_flags_public ++ t.compile_flags_public,
      link_flags_public := s.link_flags_public ++ t.link_flags_public }
  | TargetKind.staticLibrary =>
    { s with
      compile_flags_interface := s.compile_flags_interface ++ t.compile_flags_interface,
      link_flags_interface := s.link_flags_interface ++ t.link_flags_interface,
      compile_flags := s.compile_flags ++ t.compile_flags_public,
      link_flags := s.link_flags ++ t.link_flags_public }
  | _ =>
    { s with
      compile_flags := s.compile_flags ++ t.compile_flags_interface ++ t.compile_flags_public,
      link_flags := s.link_flags ++ t.link_flags_interface ++ t.link_flags_public }

/-- target.py lines 160-184: the whole dependency flag propagation loop. -/
def propagateDependencyFlags (selfClass : TargetKind) (s : FlagState)
    (deps : List DepFlags) : FlagState :=
  deps.foldl (applyDependencyFlags selfClass) s

lemma propagateDependencyFlags_cons (selfClass : TargetKind) (s : FlagState)
    (d : DepFlags) (ds : List DepFlags) :
    propagateDependencyFlags selfClass s (d :: ds) =
      propagateDependencyFlags selfClass (applyDependencyFlags selfClass s d) ds := rfl

lemma propagate_headerOnly_eq (s : FlagState) (deps : List DepFlags) :
    propagateDependencyFlags TargetKind.headerOnly s deps =
      ⟨s.compile_flags, s.link_flags,
       s.compile_flags_interface ++ (deps.map DepFlags.compile_flags_interface).flatten,
       s.link_flags_interface ++ (deps.map DepFlags.link_flags_interface).flatten,
       s.compile_flags_public ++ (deps.map DepFlags.compile_flags_public).flatten,
       s.link_flags_public ++ (deps.map DepFlags.link_flags_public).flatten⟩ := by
  induction deps generalizing s with
  | nil => simp [propagateDependencyFlags]
  | cons d ds ih =>
    rw [propagateDependencyFlags_cons, ih]
    simp [applyDependencyFlags, List.append_assoc]

lemma propagate_staticLibrary_eq (s : FlagState) (deps : List DepFlags) :
    propagateDependencyFlags TargetKind.staticLibrary s deps =
      ⟨s.compile_flags ++ (deps.map DepFlags.compile_flags_public).flatten,
       s.link_flags ++ (deps.map DepFlags.link_flags_public).flatten,
       s.compile_flags_interface ++ (deps.map DepFlags.compile_flags_interface).flatten,
       s.link_flags_interface ++ (deps.map DepFlags.link_flags_interface).flatten,
       s.compile_flags_public,
       s.link_flags_public⟩ := by
  induction deps generalizing s with
  | nil => simp [propagateDependencyFlags]
  | cons d ds ih =>
    rw [propagateDependencyFlags_cons, ih]
    simp [applyDependencyFlags, List.append_assoc]

lemma propagate_private_eq (k : TargetKind) (s : FlagState) (deps : List DepFlags)
    (hk : k = TargetKind.executable ∨ k = TargetKind.sharedLibrary) :
    propagateDependencyFlags k s deps =
      ⟨s.compile_flags ++
         (deps.map (fun t => t.compile_flags_interface ++ t.compile_flags_public)).flatten,
       s.link_flags ++
         (deps.map (fun t => t.link_flags_interface ++ t.link_flags_public)).flatten,
       s.compile_flags_interface,
       s.link_flags_interface,
       s.compile_flags_public,
       s.link_flags_public⟩ := by
  induction deps generalizing s with
  | nil => simp [propagateDependencyFlags]
  | cons d ds ih =>
    rw [propagateDependencyFlags_cons, ih]
    rcases hk with h | h <;> subst h <;>
      simp [applyDependencyFlags, List.append_assoc]

/-- Claim C1: flag propagation from dependencies, evaluated once at target
construction, follows the visibility table.  For a HeaderOnly target each
dependency's interface compile/link flags are appended to the target's
interface flags and its public compile/link flags to the target's public
flags, the private vectors being untouched; for a StaticLibrary each
dependency's interface flags go to the target's interface flags while its
public flags go to the target's private compile/link flags, the public
vectors being untouched; for an Executable or SharedLibrary both the
interface and public flags of every dependency go to the target's private
flags, and the interface and public vectors are untouched. -/
theorem c1_flag_propagation_table (s : FlagState) (deps : List DepFlags) :
    (propagateDependencyFlags TargetKind.headerOnly s deps =
      ⟨s.compile_flags, s.link_flags,
       s.compile_flags_interface ++ (deps.map DepFlags.compile_flags_interface).flatten,
       s.link_flags_interface ++ (deps.map DepFlags.link_flags_interface).flatten,
       s.compile_flags_public ++ (deps.map DepFlags.compile_flags_public).flatten,
       s.link_flags_public ++ (deps.map DepFlags.link_flags_public).flatten⟩)
    ∧ (propagateDependencyFlags TargetKind.staticLibrary s deps =
      ⟨s.compile_flags ++ (deps.map DepFlags.compile_flags_public).flatten,
       s.link_flags ++ (deps.map DepFlags.link_flags_public).flatten,
       s.compile_flags_interface ++ (deps.map DepFlags.compile_flags_interface).flatten,
       s.link_flags_interface ++ (deps.map DepFlags.link_flags_interface).flatten,
       s.compile_flags_public,
       s.link_flags_public⟩)
    ∧ (propagateDependencyFlags TargetKind.executable s deps =
      ⟨s.compile_flags ++
         (deps.map (fun t => t.compile_flags_interface ++ t.compile_flags_public)).flatten,
       s.link_flags ++
         (deps.map (fun t => t.link_flags_interface ++ t.link_flags_public)).flatten,
       s.compile_flags_interface, s.link_flags_interface,
       s.compile_flags_public, s.link_flags_public⟩)
    ∧ (propagateDependencyFlags TargetKind.sharedLibrary s deps =
      ⟨s.compile_flags ++
         (deps.map (fun t => t.compile_flags_interface ++ t.compile_flags_public)).flatten,
       s.link_flags ++
         (deps.map (fun t => t.link_flags_interface ++ t.link_flags_public)).flatten,
       s.compile_flags_interface, s.link_flags_interface,
       s.compile_flags_public, s.link_flags_public⟩) :=
  ⟨propagate_headerOnly_eq s deps, propagate_staticLibrary_eq s deps,
   propagate_private_eq TargetKind.executable s deps (Or.inl rfl),
   propagate_private_eq TargetKind.sharedLibrary s deps (Or.inr rfl)⟩

/-- Results of one Target.parse_flags_options call (target.py lines
201-232), abstracted as the pair of lists it returns. -/
structure UserFlags where
  compile : List String
  link : List String
deriving DecidableEq, Repr

/-- target.py lines 133-198: the flag part of Target.__init__.  Builds the
six flag vectors from the build type, the results of the three
parse_flags_options calls (options keys flags, interface-flags,
public-flags) and the dependency flag propagation loop; list(set(...)) on
the private compile flags is modelled by List.dedup. -/
def initTargetFlags (selfClass : TargetKind) (buildType : BuildType)
    (uFlags uInterfaceFlags uPublicFlags : UserFlags)
    (deps : List DepFlags) : FlagState :=
  let s : FlagState :=
    ⟨buildTypeDefaultFlags buildType ++ uFlags.compile, uFlags.link, [], [], [], []⟩
  let s := propagateDependencyFlags selfClass s deps
  let s := { s with compile_flags := s.compile_flags.dedup }
  let s := { s with
    compile_flags_interface := s.compile_flags_interface ++ uInterfaceFlags.compile,
    link_flags_interface := s.link_flags_interface ++ uInterfaceFlags.link }
  { s with
    compile_flags := s.compile_flags ++ uPublicFlags.compile,
    link_flags := s.link_flags ++ uPublicFlags.link,
    compile_flags_public := s.compile_flags_public ++ uPublicFlags.compile,
    link_flags_public := s.link_flags_public ++ uPublicFlags.link }

/-- target.py line 443 (Compilable.__init__): the compile flags handed to
every SingleSource buildable are DEFAULT_COMPILE_FLAGS prepended to the
target's private compile flags. -/
def sourceUnitCompileFlags (targetCompileFlags : List String) : List String :=
  DEFAULT_COMPILE_FLAGS ++ targetCompileFlags

lemma mem_propagate_compile_flags (k : TargetKind) (s : FlagState)
    (deps : List DepFlags) (f : String)
    (hf : f ∈ (propagateDependencyFlags k s deps).compile_flags) :
    f ∈ s.compile_flags ∨
      ∃ d ∈ deps, f ∈ d.compile_flags_interface ∨ f ∈ d.compile_flags_public := by
  cases k with
  | headerOnly =>
    rw [propagate_headerOnly_eq] at hf
    exact Or.inl hf
  | staticLibrary =>
    rw [propagate_staticLibrary_eq] at hf
    rcases List.mem_append.mp hf with h | h
    · exact Or.inl h
    · rcases List.mem_flatten.mp h with ⟨l, hl, hfl⟩
      rcases List.mem_map.mp hl with ⟨d, hd, rfl⟩
      exact Or.inr ⟨d, hd, Or.inr hfl⟩
  | executable =>
    rw [propagate_private_eq _ _ _ (Or.inl rfl)] at hf
    rcases List.mem_append.mp hf with h | h
    · exact Or.inl h
    · rcases List.mem_flatten.mp h with ⟨l, hl, hfl⟩
      rcases List.mem_map.mp hl with ⟨d, hd, rfl⟩
      exact Or.inr ⟨d, hd, List.mem_append.mp hfl⟩
  | sharedLibrary =>
    rw [propagate_private_eq _ _ _ (Or.inr rfl)] at hf
    rcases List.mem_append.mp hf with h | h
    · exact Or.inl h
    · rcases List.mem_flatten.mp h with ⟨l, hl, hfl⟩
      rcases List.mem_map.mp hl with ⟨d, hd, rfl⟩
      exact Or.inr ⟨d, hd, List.mem_append.mp hfl⟩

lemma base_flag_not_in_buildType (f : String) (bt : BuildType)
    (hf : f ∈ DEFAULT_COMPILE_FLAGS) : f ∉ buildTypeDefaultFlags bt := by
  have hf4 : f = "-Wall" ∨ f = "-Wextra" ∨ f = "-Wpedantic" ∨ f = "-Werror" := by
    simpa [DEFAULT_COMPILE_FLAGS] using hf
  rcases hf4 with rfl | rfl | rfl | rfl <;> cases bt <;> decide

lemma base_flag_not_in_initTargetFlags (k : TargetKind) (bt : BuildType)
    (uF uI uP : UserFlags) (deps : List DepFlags) (f : String)
    (hf : f ∈ DEFAULT_COMPILE_FLAGS)
    (h1 : f ∉ uF.compile) (h2 : f ∉ uP.compile)
    (h3 : ∀ d ∈ deps, f ∉ d.compile_flags_interface ∧ f ∉ d.compile_flags_public) :
    f ∉ (initTargetFlags k bt uF uI uP deps).compile_flags := by
  intro hmem
  simp only [initTargetFlags] at hmem
  rcases List.mem_append.mp hmem with h | h
  · have h' := List.mem_dedup.mp h
    rcases mem_propagate_compile_flags k _ deps f h' with h'' | ⟨d, hd, h''⟩
    · rcases List.mem_append.mp h'' with hb | hu
      · exact base_flag_not_in_buildType f bt hf hb
      · exact h1 hu
    · rcases h'' with hi | hp
      · exact (h3 d hd).1 hi
      · exact (h3 d hd).2 hp
  · exact h2 h

/-- Claim C4 counterexample: constructing a Release-mode Executable with no
user flags and no dependencies leaves the base default flag -Wall out of
the target's private compile-flag vector, refuting the claim that
construction appends the base default compile flags to that vector. -/
theorem c4_counterexample :
    "-Wall" ∉ (initTargetFlags TargetKind.executable BuildType.release
      ⟨[], []⟩ ⟨[], []⟩ ⟨[], []⟩ []).compile_flags := by decide

/-- Claim C4 (amended): construction appends only the build-type defaults
(and user flags) to the target's private compile-flag vector; the base
default compile flags -Wall -Wextra -Wpedantic -Werror are instead
prepended exactly once when each SingleSource buildable's flag list is
formed as DEFAULT_COMPILE_FLAGS + compile_flags, so whenever the
user-supplied and dependency-supplied flags do not themselves repeat a
base flag, every source unit's compile-flag list contains that base flag
exactly once. -/
theorem c4_base_flags_once (k : TargetKind) (bt : BuildType)
    (uF uI uP : UserFlags) (deps : List DepFlags) (f : String)
    (hf : f ∈ DEFAULT_COMPILE_FLAGS)
    (h1 : f ∉ uF.compile) (h2 : f ∉ uP.compile)
    (h3 : ∀ d ∈ deps, f ∉ d.compile_flags_interface ∧ f ∉ d.compile_flags_public) :
    (sourceUnitCompileFlags (initTargetFlags k bt uF uI uP deps).compile_flags).count f = 1 := by
  have hnot := base_flag_not_in_initTargetFlags k bt uF uI uP deps f hf h1 h2 h3
  have hcount0 : ((initTargetFlags k bt uF uI uP deps).compile_flags).count f = 0 :=
    List.count_eq_zero.mpr hnot
  have hbase : DEFAULT_COMPILE_FLAGS.count f = 1 := by
    have hf4 : f = "-Wall" ∨ f = "-Wextra" ∨ f = "-Wpedantic" ∨ f = "-Werror" := by
      simpa [DEFAULT_COMPILE_FLAGS] using hf
    rcases hf4 with rfl | rfl | rfl | rfl <;> decide
  simp [sourceUnitCompileFlags, List.count_append, hcount0, hbase]

/-- Claim C4 witness: the amended statement at a concrete input. -/
theorem c4_base_flags_once_witness :
    (sourceUnitCompileFlags (initTargetFlags TargetKind.executable BuildType.release
      ⟨[], []⟩ ⟨[], []⟩ ⟨[], []⟩ []).compile_flags).count "-Wall" = 1 :=
  c4_base_flags_once TargetKind.executable BuildType.release
    ⟨[], []⟩ ⟨[], []⟩ ⟨[], []⟩ [] "-Wall" (by decide) (by decide) (by decide)
    (by intro d hd; cases hd)

/-- The attributes of an already-constructed dependency target read while
assembling a link command (target.py lines 597-606, 649-658, 702-704). -/
structure DepTarget where
  isHeaderOnly : Bool
  output_folder : String
  outname : String
  objectFiles : List String
deriving DecidableEq, Repr

/-- target.py line 452 (Compilable.__init__): self.link_command =
link_command + [str(self.outfile)]. -/
def compilableBaseLinkCommand (link_command : List String) (outfile : String) : List String :=
  link_command ++ [outfile]

/-- target.py lines 583, 593-606 (Executable.__init__): the link command,
assembled by sequential appends over the dependency list. -/
def executableLinkCommand (clangpp outfile : String) (ownObjects : List String)
    (deps : List DepTarget) (link_flags : List String) : List String :=
  let cmd := compilableBaseLinkCommand [clangpp, "-o"] outfile
  let cmd := cmd ++ ownObjects
  let cmd := deps.foldl
    (fun c t => if t.isHeaderOnly then c else c ++ ["-L", t.output_folder]) cmd
  let cmd := cmd ++ link_flags
  deps.foldl (fun c t => if t.isHeaderOnly then c else c ++ ["-l" ++ t.outname]) cmd

/-- target.py lines 635, 645-658 (SharedLibrary.__init__): as Executable
with -shared placed before -o. -/
def sharedLibraryLinkCommand (clangpp outfile : String) (ownObjects : List String)
    (deps : List DepTarget) (link_flags : List String) : List String :=
  let cmd := compilableBaseLinkCommand [clangpp, "-shared", "-o"] outfile
  let cmd := cmd ++ ownObjects
  let cmd := deps.foldl
    (fun c t => if t.isHeaderOnly then c else c ++ ["-L", t.output_folder]) cmd
  let cmd := cmd ++ link_flags
  deps.foldl (fun c t => if t.isHeaderOnly then c else c ++ ["-l" ++ t.outname]) cmd

/-- target.py lines 687, 697-704 (StaticLibrary.__init__): the archive
command; dependency object files are appended, never library references. -/
def staticLibraryLinkCommand (clang_ar outfile : String) (ownObjects : List String)
    (deps : List DepTarget) (link_flags : List String) : List String :=
  let cmd := compilableBaseLinkCommand [clang_ar, "rc"] outfile
  let cmd := cmd ++ ownObjects
  let cmd := cmd ++ link_flags
  deps.foldl (fun c t => if t.isHeaderOnly then c else c ++ t.objectFiles) cmd

lemma foldl_skip_headerOnly (g : DepTarget → List String) (deps : List DepTarget)
    (c : List String) :
    deps.foldl (fun c t => if t.isHeaderOnly then c else c ++ g t) c =
      c ++ ((deps.filter (fun t => !t.isHeaderOnly)).map g).flatten := by
  induction deps generalizing c with
  | nil => simp
  | cons d ds ih =>
    cases hd : d.isHeaderOnly <;>
      simp [List.foldl_cons, hd, ih, List.append_assoc]

lemma flatten_map_singleton {α β : Type} (g : α → β) (l : List α) :
    (l.map (fun x => [g x])).flatten = l.map g := by
  induction l with
  | nil => rfl
  | cons x xs ih => simp [ih]

/-- Claim C3: the link commands assembled at construction follow the
templates.  An Executable's command is the C++ driver, -o, the output
file, its own object files, then -L with the output folder of each
non-HeaderOnly dependency, then the target's link flags, then -l<outname>
for each non-HeaderOnly dependency; a SharedLibrary's command is the same
with -shared before -o; a StaticLibrary's command is the archiver, rc,
the output file, its own object files, its link flags, then the object
files of each non-HeaderOnly dependency, with no -L or -l entries. -/
theorem c3_link_command_templates (clangpp clang_ar outfile : String)
    (ownObjects : List String) (deps : List DepTarget) (link_flags : List String) :
    (executableLinkCommand clangpp outfile ownObjects deps link_flags =
      [clangpp, "-o", outfile] ++ ownObjects
        ++ ((deps.filter (fun t => !t.isHeaderOnly)).map
              (fun t => ["-L", t.output_folder])).flatten
        ++ link_flags
        ++ (deps.filter (fun t => !t.isHeaderOnly)).map (fun t => "-l" ++ t.outname))
    ∧ (sharedLibraryLinkCommand clangpp outfile ownObjects deps link_flags =
      [clangpp, "-shared", "-o", outfile] ++ ownObjects
        ++ ((deps.filter (fun t => !t.isHeaderOnly)).map
              (fun t => ["-L", t.output_folder])).flatten
        ++ link_flags
        ++ (deps.filter (fun t => !t.isHeaderOnly)).map (fun t => "-l" ++ t.outname))
    ∧ (staticLibraryLinkCommand clang_ar outfile ownObjects deps link_flags =
      [clang_ar, "rc", outfile] ++ ownObjects ++ link_flags
        ++ ((deps.filter (fun t => !t.isHeaderOnly)).map DepTarget.objectFiles).flatten) := by
  refine ⟨?_, ?_, ?_⟩ <;>
    simp [executableLinkCommand, sharedLibraryLinkCommand, staticLibraryLinkCommand,
      compilableBaseLinkCommand, foldl_skip_headerOnly, flatten_map_singleton,
      List.append_assoc]

/-- A value bound to a module-level name in platform.py: either a string
constant from the source, or a value computed from the running Python
environment (sysconfig), left abstract. -/
inductive PyValue where
  | str (s : String)
  | fromEnv (what : String)
deriving DecidableEq, Repr

/-- platform.py lines 86-96: the module-level names bound when
sys.platform is linux, with their values. -/
def linuxPlatformConstants : List (String × PyValue) := [
  ("PLATFORM", PyValue.str "linux"),
  ("EXECUTABLE_OUTPUT_DIR", PyValue.str "bin"),
  ("SHARED_LIBRARY_OUTPUT_DIR", PyValue.str "lib"),
  ("STATIC_LIBRARY_OUTPUT_DIR", PyValue.str "lib"),
  ("PLATFORM_PYTHON_INCLUDE_PATH", PyValue.fromEnv "sysconfig include path"),
  ("PLATFORM_PYTHON_LIBRARY_PATH", PyValue.fromEnv "sysconfig data path, lib"),
  ("PLATFORM_PYTHON_LIBRARY_NAME", PyValue.fromEnv "pythonX.Y"),
  ("PLATFORM_PYTHON_EXTENSION_SUFFIX", PyValue.fromEnv "sysconfig EXT_SUFFIX")]

/-- platform.py lines 97-106: the names bound when sys.platform is darwin. -/
def darwinPlatformConstants : List (String × PyValue) := [
  ("PLATFORM", PyValue.str "osx"),
  ("EXECUTABLE_OUTPUT_DIR", PyValue.str "bin"),
  ("SHARED_LIBRARY_OUTPUT_DIR", PyValue.str "lib"),
  ("STATIC_LIBRARY_OUTPUT_DIR", PyValue.str "lib"),
  ("PLATFORM_PYTHON_INCLUDE_PATH", PyValue.fromEnv "sysconfig include path"),
  ("PLATFORM_PYTHON_LIBRARY_PATH", PyValue.fromEnv "sysconfig data path, lib"),
  ("PLATFORM_PYTHON_LIBRARY_NAME", PyValue.fromEnv "pythonX.Y"),
  ("PLATFORM_PYTHON_EXTENSION_SUFFIX", PyValue.fromEnv "sysconfig EXT_SUFFIX")]

/-- platform.py lines 108-117: the names bound when sys.platform is win32. -/
def windowsPlatformConstants : List (String × PyValue) := [
  ("PLATFORM", PyValue.str "windows"),
  ("EXECUTABLE_OUTPUT_DIR", PyValue.str "bin"),
  ("SHARED_LIBRARY_OUTPUT_DIR", PyValue.str "bin"),
  ("STATIC_LIBRARY_OUTPUT_DIR", PyValue.str "lib"),
  ("PLATFORM_PYTHON_INCLUDE_PATH", PyValue.fromEnv "sysconfig include path"),
  ("PLATFORM_PYTHON_LIBRARY_PATH", PyValue.fromEnv "sysconfig data path, libs"),
  ("PLATFORM_PYTHON_LIBRARY_NAME", PyValue.fromEnv "pythonXY"),
  ("PLATFORM_PYTHON_EXTENSION_SUFFIX", PyValue.fromEnv "sysconfig EXT_SUFFIX")]

/-- platform.py lines 86-120: module initialisation, selecting the constant
set from sys.platform; an unrecognised OS raises RuntimeError (the source
message lacks a space after the platform name). -/
def platformModuleConstants (sysPlatform : String) : Except String (List (String × PyValue)) :=
  if sysPlatform = "linux" then Except.ok linuxPlatformConstants
  else if sysPlatform = "darwin" then Except.ok darwinPlatformConstants
  else if sysPlatform = "win32" then Except.ok windowsPlatformConstants
  else Except.error ("Platform " ++ sysPlatform ++ "is currently not supported.")

/-- Python attribute lookup on the embedded module: getattr succeeds only
for a name the selected branch bound. -/
def moduleAttr (constants : List (String × PyValue)) (name : String) : Option PyValue :=
  (constants.find? (fun a => a.fst == name)).map Prod.snd

/-- target.py lines 584-587: the platform-module attributes read while
constructing an Executable. -/
def executablePlatformAttrsRead : List String :=
  ["EXECUTABLE_OUTPUT", "PLATFORM_EXTRA_FLAGS_EXECUTABLE",
   "EXECUTABLE_PREFIX", "EXECUTABLE_SUFFIX"]

/-- target.py lines 636-639: the attributes read while constructing a
SharedLibrary. -/
def sharedLibraryPlatformAttrsRead : List String :=
  ["SHARED_LIBRARY_OUTPUT", "PLATFORM_EXTRA_FLAGS_SHARED",
   "SHARED_LIBRARY_PREFIX", "SHARED_LIBRARY_SUFFIX"]

/-- target.py lines 688-691: the attributes read while constructing a
StaticLibrary. -/
def staticLibraryPlatformAttrsRead : List String :=
  ["STATIC_LIBRARY_OUTPUT", "PLATFORM_EXTRA_FLAGS_STATIC",
   "STATIC_LIBRARY_PREFIX", "STATIC_LIBRARY_SUFFIX"]

/-- Claim C2: evaluation at the failing configuration.  On every supported
OS the platform module binds only PLATFORM, the three output-directory
names (with the directory values of the claim) and the four Python
constants; none of the twelve per-kind prefix, suffix, output-folder or
extra-flag attributes that Compilable construction reads is defined, so
getattr returns nothing for each of them and constructing any Executable,
SharedLibrary or StaticLibrary fails with AttributeError instead of
forming an output artifact path.  Only the unrecognised-OS branch behaves
as claimed, raising a fatal RuntimeError. -/
theorem c2_platform_constants_missing :
    (platformModuleConstants "linux" = Except.ok linuxPlatformConstants
      ∧ platformModuleConstants "darwin" = Except.ok darwinPlatformConstants
      ∧ platformModuleConstants "win32" = Except.ok windowsPlatformConstants
      ∧ platformModuleConstants "plan9" =
          Except.error "Platform plan9is currently not supported.")
    ∧ ((executablePlatformAttrsRead ++ sharedLibraryPlatformAttrsRead
          ++ staticLibraryPlatformAttrsRead).all
        (fun n => (moduleAttr linuxPlatformConstants n).isNone
          && (moduleAttr darwinPlatformConstants n).isNone
          && (moduleAttr windowsPlatformConstants n).isNone) = true)
    ∧ moduleAttr linuxPlatformConstants "EXECUTABLE_OUTPUT_DIR" = some (PyValue.str "bin")
    ∧ moduleAttr linuxPlatformConstants "SHARED_LIBRARY_OUTPUT_DIR" = some (PyValue.str "lib")
    ∧ moduleAttr linuxPlatformConstants "STATIC_LIBRARY_OUTPUT_DIR" = some (PyValue.str "lib") := by
  exact ⟨⟨rfl, rfl, rfl, rfl⟩, by decide, by decide, by decide, by decide⟩

/-- Outcome of the dependency validation prologue of Project.__init__
(project.py lines 88-106); both exit constructors model sys.exit(1),
reached before any target is constructed. -/
inductive DependencyValidationResult where
  | exitNonExistent (messages : List String)
  | exitCircular (messages : List String)
  | proceedToTargetConstruction
deriving DecidableEq, Repr

/-- project.py lines 88-106: the validation prologue, parameterised by the
outputs of the dependency analyser (dependency_tools, its edge pairs).
Faithful to the source, including that the circular branch builds its
error messages from non_existent_dependencies rather than from
circular_dependencies. -/
def validateDependencies (non_existent_dependencies circular_dependencies :
    List (String × String)) : DependencyValidationResult :=
  if non_existent_dependencies ≠ [] then
    DependencyValidationResult.exitNonExistent
      (non_existent_dependencies.map (fun e =>
        s!"In {e.fst}: the dependency {e.snd} does not point to a valid target"))
  else if circular_dependencies ≠ [] then
    DependencyValidationResult.exitCircular
      (non_existent_dependencies.map (fun e =>
        s!"In {e.fst}: circular dependency -> {e.snd}"))
  else DependencyValidationResult.proceedToTargetConstruction

/-- Claim C5: evaluation at the failing configuration.  For the two-target
cycle a -> b -> a (no missing dependencies), the driver does abort with
exit code 1 before constructing any target, but it logs an empty message
list: the cycle's two edges produce no error message at all, because the
messages are built from the empty non_existent_dependencies list instead
of from circular_dependencies. -/
theorem c5_cycle_reported_without_edges :
    validateDependencies [] [("a", "b"), ("b", "a")] =
      DependencyValidationResult.exitCircular [] := by decide

/-- Python str.lower as used on target_type values (project.py lines 136,
153, 170, 188); character-wise ASCII lowercasing, computed structurally on
the character list so that concrete instances evaluate. -/
def pyLower (s : String) : String := String.mk (s.data.map Char.toLower)

/-- The effects of the target-dispatch block of Project.__init__
(project.py lines 132-234) for one target definition: which target kinds
were appended to the target list, which error and info messages were
logged, and whether the process exited. -/
structure TargetDispatchResult where
  appended : List TargetKind
  errors_logged : List String
  infos_logged : List String
  exited : Bool
deriving DecidableEq, Repr

/-- project.py lines 132-234: variant selection for one target definition.
Faithful to the source's control flow: the executable test (line 136) is
an if, while the chain from shared library (line 153) to the unsupported
else (line 203) is a separate if/elif/else, so an executable definition
also reaches that chain's else; an unsupported target_type is only
logged, nothing exits.  When no target_type is given, the choice falls to
HeaderOnly or Executable by the presence of source files. -/
def dispatchTarget (target_name : String) (target_type : Option String)
    (sourcefiles : List String) : TargetDispatchResult :=
  match target_type with
  | some tt =>
    let r0 : TargetDispatchResult := ⟨[], [], [], false⟩
    let r1 := if pyLower tt = "executable" then
        { r0 with appended := r0.appended ++ [TargetKind.executable] }
      else r0
    if pyLower tt = "shared library" then
      { r1 with appended := r1.appended ++ [TargetKind.sharedLibrary] }
    else if pyLower tt = "static library" then
      { r1 with appended := r1.appended ++ [TargetKind.staticLibrary] }
    else if pyLower tt = "header only" then
      { r1 with
        appended := r1.appended ++ [TargetKind.headerOnly],
        infos_logged := if !sourcefiles.isEmpty then
            [s!"Source files found for header-only target {target_name}. You may want to check your build configuration."]
          else [] }
    else
      { r1 with errors_logged :=
          r1.errors_logged ++ [s!"ERROR: Unsupported target type: {tt}"] }
  | none =>
    if sourcefiles.isEmpty then
      ⟨[TargetKind.headerOnly], [],
       [s!"No source files found for target {target_name}. Creating header-only target."],
       false⟩
    else
      ⟨[TargetKind.executable], [],
       [s!"{sourcefiles.length} source files found for target {target_name}. Creating executable target."],
       false⟩

/-- Claim C6 counterexample: a target definition with target_type
"python module" does not abort the build; no exit takes place, the target
is merely skipped with an error logged. -/
theorem c6_counterexample :
    (dispatchTarget "app" (some "python module") ["main.cpp"]).exited = false
      ∧ (dispatchTarget "app" (some "python module") ["main.cpp"]).errors_logged =
          ["ERROR: Unsupported target type: python module"] := by
  exact ⟨rfl, rfl⟩

/-- Claim C6 (amended): if a target definition carries a target_type that
is none of executable, shared library, static library, header only
(compared case-insensitively), an Unsupported target type error is
logged, no target is constructed from the definition, and project
construction continues: the process does not abort and does not exit with
code 1 at this point. -/
theorem c6_unknown_target_type_logged (target_name tt : String) (srcs : List String)
    (h : pyLower tt ∉ ["executable", "shared library", "static library", "header only"]) :
    (dispatchTarget target_name (some tt) srcs).appended = []
      ∧ (dispatchTarget target_name (some tt) srcs).errors_logged =
          [s!"ERROR: Unsupported target type: {tt}"]
      ∧ (dispatchTarget target_name (some tt) srcs).exited = false := by
  simp only [List.mem_cons, List.not_mem_nil, or_false, not_or] at h
  obtain ⟨h1, h2, h3, h4⟩ := h
  refine ⟨?_, ?_, ?_⟩ <;> simp [dispatchTarget, h1, h2, h3, h4]

/-- Claim C6 witness: the amended statement at a concrete input. -/
theorem c6_unknown_target_type_logged_witness :
    (dispatchTarget "app" (some "python module") ["main.cpp"]).appended = []
      ∧ (dispatchTarget "app" (some "python module") ["main.cpp"]).errors_logged =
          ["ERROR: Unsupported target type: python module"]
      ∧ (dispatchTarget "app" (some "python module") ["main.cpp"]).exited = false :=
  c6_unknown_target_type_logged "app" "python module" ["main.cpp"] (by decide)

/-- Python str.startswith, computed structurally on the character list
(project.py lines 40, 43). -/
def pyStartswith (s pre : String) : Bool := pre.data.isPrefixOf s.data

/-- project.py line 40: self.targets_config keeps every config key that
does not start with the string project (so the name and subproject keys
are kept as well). -/
def selfTargetsConfigKeys (configKeys : List String) : List String :=
  configKeys.filter (fun key => !pyStartswith key "project")

/-- project.py lines 78-81: multiple_targets is set when
self.targets_config has more than one entry. -/
def multipleTargets (configKeys : List String) : Bool :=
  decide (1 < (selfTargetsConfigKeys configKeys).length)

/-- project.py line 52: the keys actually parsed as target definitions
(everything except subproject and name). -/
def parsedTargetKeys (configKeys : List String) : List String :=
  configKeys.filter (fun key => key != "subproject" && key != "name")

/-- project.py line 121: the per-target build directory, a sub-directory
of the project build directory exactly when multiple_targets was set;
Path.joinpath is modelled by interposing a slash. -/
def targetBuildDir (projectBuildDir targetName : String) (configKeys : List String) : String :=
  if multipleTargets configKeys then projectBuildDir ++ "/" ++ targetName else projectBuildDir

/-- Claim C7: evaluation at the failing configuration.  A named project
defining exactly one target (config keys name and app) parses exactly one
target, yet its build directory is the per-target sub-directory
build/app, not the project build directory: multiple_targets counts every
key that does not start with project, including the name key. -/
theorem c7_named_single_target_gets_subdir :
    (parsedTargetKeys ["name", "app"]).length = 1
      ∧ targetBuildDir "build" "app" ["name", "app"] = "build/app"
      ∧ targetBuildDir "build" "app" ["name", "app"] ≠ "build" := by
  refine ⟨rfl, rfl, ?_⟩
  decide

/-- An already-constructed dependency target as looked up by name in
Project.__init__ (project.py line 125). -/
structure NamedTarget where
  name : String
  kind : TargetKind
deriving DecidableEq, Repr

/-- project.py line 126: the dependencies whose constructed class is
Executable. -/
def executableDependencies (dependencies : List NamedTarget) : List NamedTarget :=
  dependencies.filter (fun t => decide (t.kind = TargetKind.executable))

/-- The observable outcome of the executable-dependency check of
project.py lines 125-129: the offending list, whether an error was
logged, the dependency list that construction goes on to use, and whether
the process aborted. -/
structure DependencyCheckResult where
  executable_dependencies : List NamedTarget
  error_logged : Bool
  dependencies_kept : List NamedTarget
  aborted : Bool
deriving DecidableEq, Repr

/-- project.py lines 125-129: if any dependency is an Executable an error
is logged; the dependency list itself is passed on unchanged and nothing
exits. -/
def checkExecutableDependencies (dependencies : List NamedTarget) : DependencyCheckResult :=
  let ex := executableDependencies dependencies
  ⟨ex, !ex.isEmpty, dependencies, false⟩

/-- Claim C8: whenever a target's dependency list names a target that was
constructed as an Executable, the bad-dependency error is logged, project
construction continues (no abort), and the Executable stays in the
depending target's dependency list rather than being dropped. -/
theorem c8_executable_dependency_logged (deps : List NamedTarget) (t : NamedTarget)
    (ht : t ∈ deps) (hk : t.kind = TargetKind.executable) :
    (checkExecutableDependencies deps).error_logged = true
      ∧ (checkExecutableDependencies deps).dependencies_kept = deps
      ∧ (checkExecutableDependencies deps).aborted = false := by
  refine ⟨?_, rfl, rfl⟩
  have hmem : t ∈ executableDependencies deps := by
    simp [executableDependencies, List.mem_filter, ht, hk]
  cases hE : executableDependencies deps with
  | nil => exact absurd (hE ▸ hmem) (List.not_mem_nil t)
  | cons a as => simp [checkExecutableDependencies, hE]

/-- Claim C8 witness: the statement at a concrete dependency list. -/
theorem c8_executable_dependency_logged_witness :
    (checkExecutableDependencies [⟨"tool", TargetKind.executable⟩]).error_logged = true
      ∧ (checkExecutableDependencies [⟨"tool", TargetKind.executable⟩]).dependencies_kept =
          [⟨"tool", TargetKind.executable⟩]
      ∧ (checkExecutableDependencies [⟨"tool", TargetKind.executable⟩]).aborted = false :=
  c8_executable_dependency_logged [⟨"tool", TargetKind.executable⟩]
    ⟨"tool", TargetKind.executable⟩ (by decide) rfl

/-- The include directories of an already-constructed dependency target
as read by target.py lines 113-120. -/
structure DepIncludeDirs where
  isHeaderOnly : Bool
  include_directories : List String
  include_directories_public : List String
deriving DecidableEq, Repr

/-- target.py lines 71-123: the include-directory part of Target.__init__.
Returns the pair (include_directories, include_directories_public).  The
private list collects the parsed directories, the private directories of
HeaderOnly dependencies and the public directories of all dependencies,
and at the end is resolved and passed through list(set(...)), modelled by
map resolve then dedup; the public list collects the default include
sub-directory of the target root (when present), the parsed public
directories and the public directories of all dependencies, and is never
deduplicated or resolved. -/
def initIncludeDirectories (resolve : String → String)
    (rootHasIncludeSubdir : Bool) (rootIncludeDir : String)
    (include_directories include_directories_public : List String)
    (deps : List DepIncludeDirs) : List String × List String :=
  let pub0 : List String := if rootHasIncludeSubdir then [rootIncludeDir] else []
  let priv1 : List String := [] ++ include_directories ++ include_directories_public
  let pub1 := pub0 ++ include_directories_public
  let p2 := deps.foldl (fun (p : List String × List String) t =>
      let pr := if t.isHeaderOnly then p.1 ++ t.include_directories else p.1
      (pr ++ t.include_directories_public, p.2 ++ t.include_directories_public))
    (priv1, pub1)
  ((p2.1.map resolve).dedup, p2.2)

/-- Claim C9 counterexample: a target with two dependencies that share a
public include directory ends construction with that directory listed
twice in its public include-directory list (resolution taken as the
identity), so the public list is not duplicate-free under path
resolution. -/
theorem c9_counterexample :
    ¬ (((initIncludeDirectories id false "" [] []
        [⟨false, [], ["/inc"]⟩, ⟨false, [], ["/inc"]⟩]).2.map id).Nodup) := by
  decide

/-- Claim C9 (amended): after construction the private include-directory
list is duplicate-free under path resolution, for every target kind and
input; the public include-directory list is not deduplicated and may
contain two entries whose resolved paths are equal when the same
directory reaches the target through several dependencies. -/
theorem c9_private_includes_nodup (resolve : String → String)
    (rootHasIncludeSubdir : Bool) (rootIncludeDir : String)
    (include_directories include_directories_public : List String)
    (deps : List DepIncludeDirs) :
    ((initIncludeDirectories resolve rootHasIncludeSubdir rootIncludeDir
        include_directories include_directories_public deps).1).Nodup :=
  List.nodup_dedup _

/-- target.py line 413: the error message raised when a Compilable target
has no source files; the class name is abstracted as a string. -/
def compilableNoSourcesMessage (identifier className : String) : String :=
  s!"[{identifier}]: ERROR: Target was defined as a {className} but no source files were found"

/-- The data a successfully constructed Compilable carries that the claims
need: its identifier, its source files, and the compile-flag list of each
SingleSource buildable (one per source file). -/
structure CompilableData where
  identifier : String
  source_files : List String
  buildableFlags : List (List String)
deriving DecidableEq, Repr

/-- target.py lines 412-446 (Compilable.__init__): construction raises
RuntimeError when the source-file list is empty, and otherwise creates
one SingleSource buildable per source file. -/
def compilableInit (identifier className : String) (source_files : List String)
    (compile_flags : List String) : Except String CompilableData :=
  if source_files.isEmpty then
    Except.error (compilableNoSourcesMessage identifier className)
  else
    Except.ok ⟨identifier, source_files,
      source_files.map (fun _ => sourceUnitCompileFlags compile_flags)⟩

/-- Claim C10: constructing any Compilable target with an empty
source-file list raises an error at construction time, and no Compilable
target ever exists with zero source units: a successful construction
implies the source list was non-empty. -/
theorem c10_no_empty_compilable (identifier className : String)
    (source_files compile_flags : List String) :
    (source_files = [] →
      compilableInit identifier className source_files compile_flags =
        Except.error (compilableNoSourcesMessage identifier className))
    ∧ (∀ d, compilableInit identifier className source_files compile_flags = Except.ok d →
        source_files ≠ []) := by
  constructor
  · intro h
    subst h
    rfl
  · intro d hd h
    subst h
    simp [compilableInit] at hd

/-- Claim C10 witness: the statement at a concrete empty input. -/
theorem c10_no_empty_compilable_witness :
    compilableInit "app" "Executable" [] [] =
      Except.error (compilableNoSourcesMessage "app" "Executable") :=
  (c10_no_empty_compilable "app" "Executable" [] []).1 rfl
